import Mathlib

/-!
Shallow embedding of `src/mcp_server_perplexity/server.py` (mcp-server-perplexity),
and theorems checking the specification's claims against it.

The module has two handlers registered on an MCP `Server`:

* `handle_list_tools` returns the single static `ask_perplexity` tool descriptor.
* `handle_call_tool` posts the invocation arguments to the Perplexity chat
  completions endpoint and classifies the result.

The handler's interaction with the outside world (the awaited HTTP request and
the caller's cancellation signal) is modelled by an `UpstreamEvent`: the one
thing the environment is observed to do during the single suspension point.
Given the event, the handler's behaviour is deterministic; `handle_call_tool`
below maps the event to the returned content list or the escaping Python
exception, together with a trace of the observable side effects (which HTTP
requests were issued, whether the in-flight task was cancelled and awaited).
-/

namespace MCPServerPerplexity

/-- JSON values: the shape of tool arguments, request bodies and input schemas
(Python `dict`/`list`/`str`/... as passed to `json=arguments`). -/
inductive Json where
  | null
  | bool (b : Bool)
  | num (n : Int)
  | str (s : String)
  | arr (elems : List Json)
  | obj (fields : List (String × Json))

/-- `PERPLEXITY_API_BASE_URL = "https://api.perplexity.ai"` (server.py line 12). -/
def PERPLEXITY_API_BASE_URL : String := "https://api.perplexity.ai"

/-- `DEFAULT_TIMEOUT = 60.0` (server.py line 13), in seconds.  The value is the
float `60.0`; it is exactly the natural number 60. -/
def DEFAULT_TIMEOUT : Nat := 60

/-- Python `str(60.0)`, the text the f-string on line 142 interpolates for
`DEFAULT_TIMEOUT`. -/
def DEFAULT_TIMEOUT_STR : String := "60.0"

/-- Python `str` applied to the optional `PERPLEXITY_API_KEY` environment value
as interpolated by `f"Bearer {PERPLEXITY_API_KEY}"`: a missing variable is
`None` and prints as `"None"`. -/
def pyStrOpt : Option String → String
  | some s => s
  | none => "None"

/-- The outbound HTTP request assembled by `client.post(...)` (lines 100-108),
including the transport's retry count (`AsyncHTTPTransport(retries=2)`,
line 95). -/
structure HttpRequest where
  method : String
  url : String
  headers : List (String × String)
  body : Json
  timeoutSeconds : Nat
  transportRetries : Nat

/-- The request `handle_call_tool` issues for a given credential and arguments
object. -/
def post_request (PERPLEXITY_API_KEY : Option String) (arguments : Json) : HttpRequest :=
  { method := "POST"
    url := PERPLEXITY_API_BASE_URL ++ "/chat/completions"
    headers :=
      [("Authorization", "Bearer " ++ pyStrOpt PERPLEXITY_API_KEY),
       ("Content-Type", "application/json")]
    body := arguments
    timeoutSeconds := DEFAULT_TIMEOUT
    transportRetries := 2 }

/-- `types.TextContent(type="text", text=...)`. -/
structure TextContent where
  type : String
  text : String
deriving DecidableEq

/-- Python exceptions that can escape `handle_call_tool`. -/
inductive PyExc where
  | valueError (msg : String)
  | runtimeError (msg : String)
  | attributeError (msg : String)
deriving DecidableEq

/-- What a call to the handler produces at the Python level: a normal return
of a content list, or an exception propagating to the MCP framework. -/
inductive CallResult where
  | returned (contents : List TextContent)
  | raised (e : PyExc)
deriving DecidableEq

/-- The outcome of the single awaited upstream call, as observed by the
handler's `await asyncio.shield(request_task)` and its exception handlers:

* `response status body`: an HTTP response arrived (any status) with decoded
  body text `body`;
* `timeout excText`: the task failed with `httpx.TimeoutException`
  (`str(e) = excText`);
* `cancelledByCaller`: `asyncio.CancelledError` was delivered to the handler
  (caller cancellation) while the request task was still pending;
* `httpError excText attachedBody`: the task failed with another
  `httpx.HTTPError`; `attachedBody = some b` when the exception object carries
  a `response` attribute whose `.text` is `b` and `none` when it does not
  (httpx attaches a response only to `HTTPStatusError`; transport errors such
  as a DNS-resolution `ConnectError` have no `response` attribute);
* `otherException excText`: the task (or surrounding code) failed with any
  other `Exception`. -/
inductive UpstreamEvent where
  | response (status : Nat) (body : String)
  | timeout (excText : String)
  | cancelledByCaller
  | httpError (excText : String) (attachedBody : Option String)
  | otherException (excText : String)
deriving DecidableEq

/-- httpx `Response.is_success`: status in the 2xx range.
`response.raise_for_status()` (line 114) returns normally exactly when this
holds and raises `httpx.HTTPStatusError` otherwise. -/
def is_success (status : Nat) : Bool := 200 ≤ status && status < 300

/-- Model of `str(e)` for the `httpx.HTTPStatusError` raised by
`response.raise_for_status()` on a non-2xx status: httpx formats a message
quoting the status code and the request URL (the exact phrasing is the
library's; what matters here is that it carries the status code). -/
def raise_for_status_text (status : Nat) : String :=
  "error response '" ++ toString status ++ "' for url '" ++
    PERPLEXITY_API_BASE_URL ++ "/chat/completions'"

/-- Model of the `AttributeError` message produced by evaluating `e.response`
in `hasattr(e.response, 'text')` (line 147) when the caught `httpx.HTTPError`
has no `response` attribute. -/
def no_response_attribute_text : String :=
  "object has no attribute 'response'"

/-- Trace of one `handle_call_tool` invocation: the Python-level result, the
HTTP requests constructed and sent, and whether the in-flight request task was
cancelled (`request_task.cancel()`, line 125) and then awaited
(`await request_task`, line 127) before returning. -/
structure CallTrace where
  result : CallResult
  sentRequests : List HttpRequest
  requestTaskCancelled : Bool
  requestTaskAwaitedAfterCancel : Bool

/-- Embedding of `handle_call_tool` (server.py lines 85-151), as a function of
the upstream event.  Control flow of the source:

* line 89-90: `if name != "ask_perplexity": raise ValueError(f"Unknown tool: {name}")`
  (before any request is constructed);
* lines 99-113: the request task is created and awaited through
  `asyncio.shield`;
* line 114: `raise_for_status` — a 2xx response falls through to
  `return [TextContent(type="text", text=response.text)]` (lines 116-121), a
  non-2xx status raises `HTTPStatusError`, caught by the
  `except httpx.HTTPError` clause (lines 145-149) which raises
  `RuntimeError(f"API error: {str(e)}" + f"\\nResponse: {e.response.text}")`
  — note the `"\\n"` in the source is the two-character escape
  backslash-`n`, not a newline;
* lines 123-136: `except asyncio.CancelledError` cancels the request task,
  awaits it (swallowing its `CancelledError`), and returns the cancellation
  text;
* lines 138-144: `except httpx.TimeoutException` returns the timeout text;
* lines 145-149: other `httpx.HTTPError`s take the same clause as the status
  error, but when the exception has no `response` attribute the expression
  `e.response` inside `hasattr(e.response, 'text')` itself raises
  `AttributeError`, which propagates out of the handler uncaught (an exception
  raised inside an `except` clause is not caught by the later
  `except Exception` clause of the same `try`);
* lines 150-151: `except Exception` raises
  `RuntimeError(f"Unexpected error: {str(e)}")`. -/
def handle_call_tool (PERPLEXITY_API_KEY : Option String) (name : String)
    (arguments : Json) (ev : UpstreamEvent) : CallTrace :=
  if name ≠ "ask_perplexity" then
    { result := .raised (.valueError ("Unknown tool: " ++ name))
      sentRequests := []
      requestTaskCancelled := false
      requestTaskAwaitedAfterCancel := false }
  else
    let req := post_request PERPLEXITY_API_KEY arguments
    match ev with
    | .response status body =>
      if is_success status then
        { result := .returned [{ type := "text", text := body }]
          sentRequests := [req]
          requestTaskCancelled := false
          requestTaskAwaitedAfterCancel := false }
      else
        { result := .raised (.runtimeError
            ("API error: " ++ raise_for_status_text status ++
             "\\nResponse: " ++ body))
          sentRequests := [req]
          requestTaskCancelled := false
          requestTaskAwaitedAfterCancel := false }
    | .timeout _ =>
      { result := .returned
          [{ type := "text"
             text := "Request timed out after " ++ DEFAULT_TIMEOUT_STR ++
               " seconds. Please try again." }]
        sentRequests := [req]
        requestTaskCancelled := false
        requestTaskAwaitedAfterCancel := false }
    | .cancelledByCaller =>
      { result := .returned
          [{ type := "text", text := "Request was cancelled by the client." }]
        sentRequests := [req]
        requestTaskCancelled := true
        requestTaskAwaitedAfterCancel := true }
    | .httpError excText attachedBody =>
      match attachedBody with
      | some body =>
        { result := .raised (.runtimeError
            ("API error: " ++ excText ++ "\\nResponse: " ++ body))
          sentRequests := [req]
          requestTaskCancelled := false
          requestTaskAwaitedAfterCancel := false }
      | none =>
        { result := .raised (.attributeError no_response_attribute_text)
          sentRequests := [req]
          requestTaskCancelled := false
          requestTaskAwaitedAfterCancel := false }
    | .otherException excText =>
      { result := .raised (.runtimeError ("Unexpected error: " ++ excText))
        sentRequests := [req]
        requestTaskCancelled := false
        requestTaskAwaitedAfterCancel := false }

/-- `types.Tool(name=..., description=..., inputSchema=...)`. -/
structure Tool where
  name : String
  description : String
  inputSchema : Json

/-- The `description` argument of the `ask_perplexity` tool (lines 22-45):
the result of `textwrap.dedent` on the triple-quoted literal, which strips the
16-space margin and normalises the whitespace-only final line to empty, so the
string starts and ends with a newline and keeps the two-space continuation
indents. -/
def ask_perplexity_description : String :=
  "\nPerplexity equips agents with a specialized tool for efficiently\n" ++
  "gathering source-backed information from the internet, ideal for\n" ++
  "scenarios requiring research, fact-checking, or contextual data to\n" ++
  "inform decisions and responses.\n" ++
  "Each response includes citations, which provide transparent references\n" ++
  "to the sources used for the generated answer, and choices, which\n" ++
  "contain the model's suggested responses, enabling users to access\n" ++
  "reliable information and diverse perspectives.\n" ++
  "This function may encounter timeout errors due to long processing times,\n" ++
  "but retrying the operation can lead to successful completion.\n" ++
  "[Response structure]\n" ++
  "- id: An ID generated uniquely for each response.\n" ++
  "- model: The model used to generate the response.\n" ++
  "- object: The object type, which always equals `chat.completion`.\n" ++
  "- created: The Unix timestamp (in seconds) of when the completion was\n" ++
  "  created.\n" ++
  "- citations[]: Citations for the generated answer.\n" ++
  "- choices[]: The list of completion choices the model generated for the\n" ++
  "  input prompt.\n" ++
  "- usage: Usage statistics for the completion request.\n"

/-- The `inputSchema` argument of the `ask_perplexity` tool (lines 46-81).
The larger models in the `enum` are commented out in the source, leaving a
single allowed `model` value. -/
def ask_perplexity_inputSchema : Json :=
  .obj
    [("type", .str "object"),
     ("properties", .obj
       [("model", .obj
         [("type", .str "string"),
          ("description", .str "The name of the model that will complete your prompt."),
          ("enum", .arr [.str "llama-3.1-sonar-small-128k-online"])]),
        ("messages", .obj
         [("type", .str "array"),
          ("description", .str "A list of messages comprising the conversation so far."),
          ("items", .obj
           [("type", .str "object"),
            ("properties", .obj
             [("content", .obj
               [("type", .str "string"),
                ("description", .str "The contents of the message in this turn of conversation.")]),
              ("role", .obj
               [("type", .str "string"),
                ("description", .str "The role of the speaker in this turn of conversation. After the (optional) system message, user and assistant roles should alternate with user then assistant, ending in user."),
                ("enum", .arr [.str "system", .str "user", .str "assistant"])])]),
            ("required", .arr [.str "content", .str "role"])])])]),
     ("required", .arr [.str "model", .str "messages"])]

/-- Embedding of `handle_list_tools` (server.py lines 17-83): returns the
single static tool descriptor.  The `Unit` argument mirrors the nullary async
call; the body depends on nothing else (pure, no side effects). -/
def handle_list_tools (_ : Unit) : List Tool :=
  [{ name := "ask_perplexity"
     description := ask_perplexity_description
     inputSchema := ask_perplexity_inputSchema }]

/-- The specification's five outcome kinds for one invocation. -/
inductive OutcomeKind where
  | success
  | timedOut
  | cancelled
  | upstreamError
  | unexpectedError
deriving DecidableEq

/-- The invocation achieved `Success(text)`: a 2xx response arrived and its
raw body text was returned verbatim as ordinary text content. -/
def IsSuccessOutcome (ev : UpstreamEvent) (tr : CallTrace) : Prop :=
  ∃ status body, ev = .response status body ∧ is_success status = true ∧
    tr.result = .returned [{ type := "text", text := body }]

/-- The invocation achieved `TimedOut`: the upstream call timed out and the
fixed timeout message was returned as ordinary text content. -/
def IsTimedOutOutcome (ev : UpstreamEvent) (tr : CallTrace) : Prop :=
  (∃ t, ev = .timeout t) ∧
    tr.result = .returned
      [{ type := "text"
         text := "Request timed out after 60.0 seconds. Please try again." }]

/-- The invocation achieved `Cancelled`: the caller cancelled while the
request was pending and the fixed cancellation message was returned as
ordinary text content. -/
def IsCancelledOutcome (ev : UpstreamEvent) (tr : CallTrace) : Prop :=
  ev = .cancelledByCaller ∧
    tr.result = .returned
      [{ type := "text", text := "Request was cancelled by the client." }]

/-- The invocation achieved `UpstreamError`: an HTTP-level error (a non-2xx
response, or another `httpx.HTTPError` carrying a response) was re-raised as a
`RuntimeError` whose message starts with `API error: `. -/
def IsUpstreamErrorOutcome (ev : UpstreamEvent) (tr : CallTrace) : Prop :=
  ((∃ status body, ev = .response status body ∧ is_success status = false) ∨
    (∃ t body, ev = .httpError t (some body))) ∧
    ∃ rest, tr.result = .raised (.runtimeError ("API error: " ++ rest))

/-- The invocation achieved `UnexpectedError`: a failure of any other kind was
re-raised as a `RuntimeError` whose message starts with `Unexpected error: `. -/
def IsUnexpectedErrorOutcome (ev : UpstreamEvent) (tr : CallTrace) : Prop :=
  (∃ t, ev = .otherException t) ∧
    ∃ rest, tr.result = .raised (.runtimeError ("Unexpected error: " ++ rest))

/-- The invocation with upstream event `ev` and trace `tr` realised outcome
kind `k`. -/
def HasOutcomeKind (ev : UpstreamEvent) (tr : CallTrace) : OutcomeKind → Prop
  | .success => IsSuccessOutcome ev tr
  | .timedOut => IsTimedOutOutcome ev tr
  | .cancelled => IsCancelledOutcome ev tr
  | .upstreamError => IsUpstreamErrorOutcome ev tr
  | .unexpectedError => IsUnexpectedErrorOutcome ev tr

/-- String `s` contains `pat` as a contiguous substring. -/
def StrContains (s pat : String) : Prop :=
  ∃ pre post, s = pre ++ pat ++ post

/-! Helper lemmas: string append algebra and one equation lemma per branch of
`handle_call_tool`. -/

theorem str_append_assoc (a b c : String) : a ++ b ++ c = a ++ (b ++ c) := by
  apply String.ext
  simp [String.data_append, List.append_assoc]

theorem str_append_empty (a : String) : a ++ "" = a := by
  apply String.ext
  simp [String.data_append]

theorem str_empty_append (a : String) : "" ++ a = a := by
  apply String.ext
  simp [String.data_append]

theorem strContains_refl (s : String) : StrContains s s :=
  ⟨"", "", by rw [str_empty_append, str_append_empty]⟩

theorem strContains_appendL {t p : String} (s : String) (h : StrContains t p) :
    StrContains (s ++ t) p := by
  obtain ⟨pre, post, rfl⟩ := h
  exact ⟨s ++ pre, post, by simp [str_append_assoc]⟩

theorem strContains_appendR {s p : String} (t : String) (h : StrContains s p) :
    StrContains (s ++ t) p := by
  obtain ⟨pre, post, rfl⟩ := h
  exact ⟨pre, post ++ t, by simp [str_append_assoc]⟩

theorem hct_success (k : Option String) (args : Json) {status : Nat} (body : String)
    (hs : is_success status = true) :
    handle_call_tool k "ask_perplexity" args (.response status body) =
      { result := .returned [{ type := "text", text := body }]
        sentRequests := [post_request k args]
        requestTaskCancelled := false
        requestTaskAwaitedAfterCancel := false } := by
  simp [handle_call_tool, hs]

theorem hct_status_error (k : Option String) (args : Json) {status : Nat} (body : String)
    (hs : is_success status = false) :
    handle_call_tool k "ask_perplexity" args (.response status body) =
      { result := .raised (.runtimeError
          ("API error: " ++ raise_for_status_text status ++ "\\nResponse: " ++ body))
        sentRequests := [post_request k args]
        requestTaskCancelled := false
        requestTaskAwaitedAfterCancel := false } := by
  simp [handle_call_tool, hs]

theorem hct_timeout (k : Option String) (args : Json) (t : String) :
    handle_call_tool k "ask_perplexity" args (.timeout t) =
      { result := .returned
          [{ type := "text"
             text := "Request timed out after 60.0 seconds. Please try again." }]
        sentRequests := [post_request k args]
        requestTaskCancelled := false
        requestTaskAwaitedAfterCancel := false } := by
  simp [handle_call_tool]
  rfl

theorem hct_cancelled (k : Option String) (args : Json) :
    handle_call_tool k "ask_perplexity" args .cancelledByCaller =
      { result := .returned
          [{ type := "text", text := "Request was cancelled by the client." }]
        sentRequests := [post_request k args]
        requestTaskCancelled := true
        requestTaskAwaitedAfterCancel := true } := by
  simp [handle_call_tool]

theorem hct_http_error_body (k : Option String) (args : Json) (t body : String) :
    handle_call_tool k "ask_perplexity" args (.httpError t (some body)) =
      { result := .raised (.runtimeError
          ("API error: " ++ t ++ "\\nResponse: " ++ body))
        sentRequests := [post_request k args]
        requestTaskCancelled := false
        requestTaskAwaitedAfterCancel := false } := by
  simp [handle_call_tool]

theorem hct_http_error_no_body (k : Option String) (args : Json) (t : String) :
    handle_call_tool k "ask_perplexity" args (.httpError t none) =
      { result := .raised (.attributeError no_response_attribute_text)
        sentRequests := [post_request k args]
        requestTaskCancelled := false
        requestTaskAwaitedAfterCancel := false } := by
  simp [handle_call_tool]

theorem hct_unexpected (k : Option String) (args : Json) (t : String) :
    handle_call_tool k "ask_perplexity" args (.otherException t) =
      { result := .raised (.runtimeError ("Unexpected error: " ++ t))
        sentRequests := [post_request k args]
        requestTaskCancelled := false
        requestTaskAwaitedAfterCancel := false } := by
  simp [handle_call_tool]

/-! Claim theorems. -/

/-- C2: for every invocation whose operation name differs from the single
registered name `ask_perplexity`, the handler fails immediately with a raised
UnknownOperation error (`ValueError("Unknown tool: ...")`) and issues no
network call: no HTTP request is constructed or sent. -/
theorem c2_unknown_tool_raises_and_sends_nothing (k : Option String) (name : String)
    (args : Json) (ev : UpstreamEvent) (h : name ≠ "ask_perplexity") :
    handle_call_tool k name args ev =
      { result := .raised (.valueError ("Unknown tool: " ++ name))
        sentRequests := []
        requestTaskCancelled := false
        requestTaskAwaitedAfterCancel := false } := by
  simp [handle_call_tool, h]

/-- C2 witness: the concrete name `weather_tool` is rejected with a raised
`ValueError` and an empty request trace. -/
theorem c2_unknown_tool_raises_and_sends_nothing_witness :
    ("weather_tool" : String) ≠ "ask_perplexity" ∧
    handle_call_tool (some "key") "weather_tool" (Json.obj []) (.response 200 "ok") =
      { result := .raised (.valueError ("Unknown tool: " ++ "weather_tool"))
        sentRequests := []
        requestTaskCancelled := false
        requestTaskAwaitedAfterCancel := false } :=
  ⟨by decide,
   c2_unknown_tool_raises_and_sends_nothing (some "key") "weather_tool" (Json.obj [])
     (.response 200 "ok") (by decide)⟩

/-- C3: for every invocation where the upstream responds with a 2xx status,
the outcome is Success whose text is exactly the raw response body string —
the returned `TextContent` carries `body` itself, with no parsing,
re-serialization, or validation applied. -/
theorem c3_success_is_verbatim_body (k : Option String) (args : Json) (status : Nat)
    (body : String) (hs : is_success status = true) :
    handle_call_tool k "ask_perplexity" args (.response status body) =
      { result := .returned [{ type := "text", text := body }]
        sentRequests := [post_request k args]
        requestTaskCancelled := false
        requestTaskAwaitedAfterCancel := false } :=
  hct_success k args body hs

/-- C3 witness: HTTP 200 with the literal body from the specification yields
Success with exactly that body string. -/
theorem c3_success_is_verbatim_body_witness :
    is_success 200 = true ∧
    handle_call_tool (some "key") "ask_perplexity" (Json.obj [])
        (.response 200 "\x7b\"id\":\"x\",\"choices\":[]\x7d") =
      { result := .returned
          [{ type := "text", text := "\x7b\"id\":\"x\",\"choices\":[]\x7d" }]
        sentRequests := [post_request (some "key") (Json.obj [])]
        requestTaskCancelled := false
        requestTaskAwaitedAfterCancel := false } :=
  ⟨by decide,
   c3_success_is_verbatim_body (some "key") (Json.obj []) 200
     "\x7b\"id\":\"x\",\"choices\":[]\x7d" (by decide)⟩

/-- C4: for every invocation where the upstream call does not return within
the fixed 60-second timeout, the outcome is TimedOut: an ordinary returned
text result (not a raised error) whose message interpolates exactly the
`DEFAULT_TIMEOUT` constant (Python `str(60.0) = "60.0"`). -/
theorem c4_timeout_is_text_outcome_with_constant (k : Option String) (args : Json)
    (t : String) :
    handle_call_tool k "ask_perplexity" args (.timeout t) =
      { result := .returned
          [{ type := "text"
             text := "Request timed out after " ++ DEFAULT_TIMEOUT_STR ++
               " seconds. Please try again." }]
        sentRequests := [post_request k args]
        requestTaskCancelled := false
        requestTaskAwaitedAfterCancel := false } ∧
    "Request timed out after " ++ DEFAULT_TIMEOUT_STR ++ " seconds. Please try again." =
      "Request timed out after 60.0 seconds. Please try again." :=
  ⟨by rw [hct_timeout]; rfl, by decide⟩

/-- C6 evaluation at the failing input: an `httpx.HTTPError` without an
attached response (e.g. the `ConnectError` of a DNS resolution failure) does
not produce the `RuntimeError("Unexpected error: ...")` classification the
claim requires — evaluating `e.response` inside `hasattr(e.response, 'text')`
raises an `AttributeError` that escapes the handler unclassified. -/
theorem c6_connect_error_escapes_unclassified :
    handle_call_tool (some "key") "ask_perplexity" (Json.obj [])
        (.httpError "connection failed" none) =
      { result := .raised (.attributeError no_response_attribute_text)
        sentRequests := [post_request (some "key") (Json.obj [])]
        requestTaskCancelled := false
        requestTaskAwaitedAfterCancel := false } := rfl

/-- C7: when the caller signals cancellation before the upstream response
arrives, the outcome is Cancelled reported as ordinary text, the executor
cancels the in-flight request task and awaits its teardown before returning,
and the invocation realises the Cancelled outcome kind and no other. -/
theorem c7_cancellation_is_exclusive_text_outcome (k : Option String) (args : Json) :
    handle_call_tool k "ask_perplexity" args .cancelledByCaller =
      { result := .returned
          [{ type := "text", text := "Request was cancelled by the client." }]
        sentRequests := [post_request k args]
        requestTaskCancelled := true
        requestTaskAwaitedAfterCancel := true } ∧
    ∀ kind, HasOutcomeKind .cancelledByCaller
        (handle_call_tool k "ask_perplexity" args .cancelledByCaller) kind ↔
      kind = .cancelled := by
  refine ⟨hct_cancelled k args, ?_⟩
  intro kind
  constructor
  · intro hk
    cases kind <;>
      simp_all [HasOutcomeKind, IsSuccessOutcome, IsTimedOutOutcome, IsCancelledOutcome,
        IsUpstreamErrorOutcome, IsUnexpectedErrorOutcome]
  · rintro rfl
    exact ⟨rfl, by rw [hct_cancelled]⟩

/-- C8: the list-operations function is pure and idempotent — any two calls
return structurally identical descriptor lists, containing exactly one
descriptor, whose name is the fixed `ask_perplexity`. -/
theorem c8_list_tools_pure_single_descriptor (u v : Unit) :
    handle_list_tools u = handle_list_tools v ∧
    (handle_list_tools u).length = 1 ∧
    (handle_list_tools u).map Tool.name = ["ask_perplexity"] :=
  ⟨rfl, rfl, rfl⟩

/-- C9: every invocation with the registered operation name sends exactly one
outbound HTTP request: a POST to the fixed endpoint
`https://api.perplexity.ai/chat/completions`, whose body is the arguments
object verbatim, with an `Authorization: Bearer <credential>` header built
from the process-wide credential and a JSON content-type header (and the
transport's retry count 2 and the 60-second timeout). -/
theorem c9_request_shape (k : Option String) (args : Json) (ev : UpstreamEvent) :
    (handle_call_tool k "ask_perplexity" args ev).sentRequests = [post_request k args] ∧
    post_request k args =
      { method := "POST"
        url := "https://api.perplexity.ai/chat/completions"
        headers :=
          [("Authorization", "Bearer " ++ pyStrOpt k),
           ("Content-Type", "application/json")]
        body := args
        timeoutSeconds := 60
        transportRetries := 2 } := by
  constructor
  · cases ev with
    | response status body => cases hs : is_success status <;> simp [handle_call_tool, hs]
    | timeout t => simp [handle_call_tool]
    | cancelledByCaller => simp [handle_call_tool]
    | httpError t ab => cases ab <;> simp [handle_call_tool]
    | otherException t => simp [handle_call_tool]
  · rfl

/-- C1 counterexample: the claim quantifies over any operation name, but an
invocation with the unregistered name `another_tool` raises
`ValueError("Unknown tool: ...")`, which realises none of the five outcome
kinds — the classification is not total over arbitrary names. -/
theorem c1_unknown_name_counterexample :
    ¬ ∃ kind, HasOutcomeKind (.response 200 "ok")
        (handle_call_tool (some "key") "another_tool" (Json.obj [])
          (.response 200 "ok")) kind := by
  rintro ⟨kind, hk⟩
  have htr : handle_call_tool (some "key") "another_tool" (Json.obj [])
      (.response 200 "ok") =
      { result := .raised (.valueError ("Unknown tool: " ++ "another_tool"))
        sentRequests := []
        requestTaskCancelled := false
        requestTaskAwaitedAfterCancel := false } := rfl
  cases kind <;>
    simp_all [HasOutcomeKind, IsSuccessOutcome, IsTimedOutOutcome, IsCancelledOutcome,
      IsUpstreamErrorOutcome, IsUnexpectedErrorOutcome]

/-- C1 (amended): for every invocation with the registered operation name
`ask_perplexity` whose upstream event is not an HTTP-layer error lacking an
attached response, the handler terminates in exactly one of the five outcome
kinds (Success, TimedOut, Cancelled, UpstreamError, UnexpectedError) — never
zero and never more than one.  (An unknown operation name instead raises an
UnknownOperation `ValueError` realising none of the five, and an HTTP-layer
error without an attached response escapes as an unclassified
`AttributeError`.) -/
theorem c1_exactly_one_outcome_kind (k : Option String) (args : Json)
    (ev : UpstreamEvent) (h : ∀ t, ev ≠ .httpError t none) :
    ∃! kind, HasOutcomeKind ev (handle_call_tool k "ask_perplexity" args ev) kind := by
  cases ev with
  | response status body =>
    cases hs : is_success status with
    | true =>
      refine ⟨.success, ⟨status, body, rfl, hs, by rw [hct_success k args body hs]⟩, ?_⟩
      intro kind hk
      cases kind <;>
        simp_all [HasOutcomeKind, IsSuccessOutcome, IsTimedOutOutcome, IsCancelledOutcome,
          IsUpstreamErrorOutcome, IsUnexpectedErrorOutcome, hct_success k args body hs]
    | false =>
      refine ⟨.upstreamError,
        ⟨Or.inl ⟨status, body, rfl, hs⟩,
          raise_for_status_text status ++ ("\\nResponse: " ++ body), ?_⟩, ?_⟩
      · rw [hct_status_error k args body hs]
        simp [str_append_assoc]
      · intro kind hk
        cases kind <;>
          simp_all [HasOutcomeKind, IsSuccessOutcome, IsTimedOutOutcome, IsCancelledOutcome,
            IsUpstreamErrorOutcome, IsUnexpectedErrorOutcome, hct_status_error k args body hs]
  | timeout t =>
    refine ⟨.timedOut, ⟨⟨t, rfl⟩, by rw [hct_timeout]⟩, ?_⟩
    intro kind hk
    cases kind <;>
      simp_all [HasOutcomeKind, IsSuccessOutcome, IsTimedOutOutcome, IsCancelledOutcome,
        IsUpstreamErrorOutcome, IsUnexpectedErrorOutcome]
  | cancelledByCaller =>
    refine ⟨.cancelled, ⟨rfl, by rw [hct_cancelled]⟩, ?_⟩
    intro kind hk
    cases kind <;>
      simp_all [HasOutcomeKind, IsSuccessOutcome, IsTimedOutOutcome, IsCancelledOutcome,
        IsUpstreamErrorOutcome, IsUnexpectedErrorOutcome]
  | httpError t ab =>
    cases ab with
    | none => exact absurd rfl (h t)
    | some body =>
      refine ⟨.upstreamError,
        ⟨Or.inr ⟨t, body, rfl⟩, t ++ ("\\nResponse: " ++ body), ?_⟩, ?_⟩
      · rw [hct_http_error_body]
        simp [str_append_assoc]
      · intro kind hk
        cases kind <;>
          simp_all [HasOutcomeKind, IsSuccessOutcome, IsTimedOutOutcome, IsCancelledOutcome,
            IsUpstreamErrorOutcome, IsUnexpectedErrorOutcome]
  | otherException t =>
    refine ⟨.unexpectedError, ⟨⟨t, rfl⟩, t, by rw [hct_unexpected]⟩, ?_⟩
    intro kind hk
    cases kind <;>
      simp_all [HasOutcomeKind, IsSuccessOutcome, IsTimedOutOutcome, IsCancelledOutcome,
        IsUpstreamErrorOutcome, IsUnexpectedErrorOutcome]

/-- C1 witness: the timeout event satisfies the side condition and realises
exactly one outcome kind. -/
theorem c1_exactly_one_outcome_kind_witness :
    (∀ t, (UpstreamEvent.timeout "late") ≠ UpstreamEvent.httpError t none) ∧
    ∃! kind, HasOutcomeKind (.timeout "late")
      (handle_call_tool (some "key") "ask_perplexity" (Json.obj []) (.timeout "late")) kind :=
  ⟨fun _ h => UpstreamEvent.noConfusion h,
   c1_exactly_one_outcome_kind (some "key") (Json.obj []) (.timeout "late")
     (fun _ h => UpstreamEvent.noConfusion h)⟩

/-- C5: for every invocation where the upstream responds with a non-2xx
status, the outcome is UpstreamError, raised as a `RuntimeError` to the
transport layer, whose message contains both the status context (the httpx
status-error text, which quotes the status code) and the literal raw response
body text. -/
theorem c5_upstream_error_message (k : Option String) (args : Json) (status : Nat)
    (body : String) (hs : is_success status = false) :
    handle_call_tool k "ask_perplexity" args (.response status body) =
      { result := .raised (.runtimeError
          ("API error: " ++ raise_for_status_text status ++ "\\nResponse: " ++ body))
        sentRequests := [post_request k args]
        requestTaskCancelled := false
        requestTaskAwaitedAfterCancel := false } ∧
    StrContains ("API error: " ++ raise_for_status_text status ++ "\\nResponse: " ++ body)
      (toString status) ∧
    StrContains ("API error: " ++ raise_for_status_text status ++ "\\nResponse: " ++ body)
      body := by
  refine ⟨hct_status_error k args body hs, ?_, ?_⟩
  · apply strContains_appendR
    apply strContains_appendR
    apply strContains_appendL
    simp only [raise_for_status_text]
    apply strContains_appendR
    apply strContains_appendR
    apply strContains_appendR
    exact strContains_appendL _ (strContains_refl _)
  · exact strContains_appendL _ (strContains_refl _)

/-- C5 witness: HTTP 401 with the specification's example body yields the
raised UpstreamError message containing the status code text and the body. -/
theorem c5_upstream_error_message_witness :
    is_success 401 = false ∧
    (handle_call_tool (some "key") "ask_perplexity" (Json.obj [])
        (.response 401 "\x7b\"error\":\"bad key\"\x7d") =
      { result := .raised (.runtimeError
          ("API error: " ++ raise_for_status_text 401 ++ "\\nResponse: " ++
            "\x7b\"error\":\"bad key\"\x7d"))
        sentRequests := [post_request (some "key") (Json.obj [])]
        requestTaskCancelled := false
        requestTaskAwaitedAfterCancel := false } ∧
    StrContains ("API error: " ++ raise_for_status_text 401 ++ "\\nResponse: " ++
        "\x7b\"error\":\"bad key\"\x7d") (toString 401) ∧
    StrContains ("API error: " ++ raise_for_status_text 401 ++ "\\nResponse: " ++
        "\x7b\"error\":\"bad key\"\x7d") "\x7b\"error\":\"bad key\"\x7d") :=
  ⟨by decide,
   c5_upstream_error_message (some "key") (Json.obj []) 401 "\x7b\"error\":\"bad key\"\x7d"
     (by decide)⟩

/-- C10 counterexample: the claim's quoted template joins the parts as
`\\n Response:` with a space after the two-character separator, but the code
writes `\\nResponse:` with no space — at HTTP 401 with body `denied` the
produced message differs from the claimed template. -/
theorem c10_template_counterexample :
    (handle_call_tool (some "key") "ask_perplexity" (Json.obj [])
        (.response 401 "denied")).result ≠
      CallResult.raised (.runtimeError
        ("API error: " ++ raise_for_status_text 401 ++ "\\n Response: " ++ "denied")) := by
  decide

/-- C10 (amended): in the UpstreamError message, when a response body is
present, the status context and the `Response: <body>` part are joined by the
literal two-character sequence backslash followed by `n` (from the source text
`"\\n"`), not by an actual newline character and with no space: the message is
the concatenation `API error: <exception text>` ++ `\\n` ++ `Response: <body>`. -/
theorem c10_separator_is_two_characters (k : Option String) (args : Json)
    (status : Nat) (body : String) (hs : is_success status = false) :
    (handle_call_tool k "ask_perplexity" args (.response status body)).result =
      .raised (.runtimeError
        ("API error: " ++ raise_for_status_text status ++ "\\n" ++ "Response: " ++ body)) ∧
    ("\\n" : String).data = ['\\', 'n'] ∧
    ("\\n" : String) ≠ "\n" := by
  refine ⟨?_, by decide, by decide⟩
  rw [hct_status_error k args body hs,
    (by decide : ("\\nResponse: " : String) = "\\n" ++ "Response: ")]
  simp [str_append_assoc]

/-- C10 witness: the amended statement at HTTP 401 with body `denied`. -/
theorem c10_separator_is_two_characters_witness :
    is_success 401 = false ∧
    ((handle_call_tool (some "key") "ask_perplexity" (Json.obj [])
        (.response 401 "denied")).result =
      CallResult.raised (.runtimeError
        ("API error: " ++ raise_for_status_text 401 ++ "\\n" ++ "Response: " ++ "denied")) ∧
    ("\\n" : String).data = ['\\', 'n'] ∧
    ("\\n" : String) ≠ "\n") :=
  ⟨by decide,
   c10_separator_is_two_characters (some "key") (Json.obj []) 401 "denied" (by decide)⟩

end MCPServerPerplexity
